import Mathlib

/-
Verification of the HTTP/3 framing layer of the example client/server in
src/HTTP3-client/client.go: the varint codec it relies on, the dataFrame
header writer, and the RWStreamImp Read, Write and Close methods.

Bytes are modelled as natural numbers below 256.  The receive direction
of a raw conduit (the QUIC stream) is the list of bytes it will deliver,
in order; clean end-of-data is the empty list.
-/

/-- Errors surfaced by the stream layer.  The Go code produces exactly
two kinds: the io.EOF of the conduit, propagated unchanged from the
stream read or from quicvarint.Read, and the fmt.Errorf value produced
for a non-DATA frame type (client.go line 155). -/
inductive Err where
  | eof
  | unexpectedFrameType (t : Nat)
deriving DecidableEq

/-- Result of a read call: the delivered bytes, or an error.  The Go
methods return a byte count plus an error; the model returns the
delivered prefix of the buffer instead of a count. -/
inductive ReadResult where
  | ok (bs : List Nat)
  | err (e : Err)
deriving DecidableEq

/-- Modelled from the spec: the varint encoder quicvarint.Write of the
external quic-go package, which is not under src/.  Spec section 3:
minimal width among 1, 2, 4 or 8 bytes, a two-bit length tag in the two
top bits of the leading byte, remaining bits the value in big-endian
order.  A value of 2^62 or more makes quicvarint.Write panic (spec:
RangeError); the model returns the empty emission there, and every
theorem below stays under that bound. -/
def varintWrite (v : Nat) : List Nat :=
  if v < 64 then [v]
  else if v < 16384 then [64 + v / 256, v % 256]
  else if v < 1073741824 then
    [128 + v / 16777216, v / 65536 % 256, v / 256 % 256, v % 256]
  else if v < 4611686018427387904 then
    [192 + v / 72057594037927936, v / 281474976710656 % 256,
     v / 1099511627776 % 256, v / 4294967296 % 256, v / 16777216 % 256,
     v / 65536 % 256, v / 256 % 256, v % 256]
  else []

/-- Modelled from the spec: the varint decoder quicvarint.Read of the
external quic-go package, which is not under src/, reading from the head
of the conduit byte by byte (through byteReaderImpl of client.go lines
102-111).  Returns the decoded value, the number of bytes consumed and
the remaining conduit; none models the io.EOF obtained when the conduit
runs out before the full width arrives (or immediately). -/
def varintRead : List Nat → Option (Nat × Nat × List Nat)
  | [] => none
  | b :: r =>
    if b / 64 = 0 then some (b % 64, 1, r)
    else if b / 64 = 1 then
      match r with
      | b2 :: r2 => some ((b % 64) * 256 + b2, 2, r2)
      | [] => none
    else if b / 64 = 2 then
      match r with
      | b2 :: b3 :: b4 :: r4 =>
        some ((((b % 64) * 256 + b2) * 256 + b3) * 256 + b4, 4, r4)
      | _ => none
    else
      match r with
      | b2 :: b3 :: b4 :: b5 :: b6 :: b7 :: b8 :: r8 =>
        some ((((((((b % 64) * 256 + b2) * 256 + b3) * 256 + b4) * 256
          + b5) * 256 + b6) * 256 + b7) * 256 + b8, 8, r8)
      | _ => none

/-- Decoding an encoded value, with anything after it on the conduit,
returns the value, consumes exactly the bytes of its encoding, and
leaves the rest of the conduit. -/
lemma varintRead_varintWrite (v : Nat) (h : v < 4611686018427387904)
    (rest : List Nat) :
    varintRead (varintWrite v ++ rest)
      = some (v, (varintWrite v).length, rest) := by
  by_cases h1 : v < 64
  · have hb : v / 64 = 0 := by omega
    have hm : v % 64 = v := by omega
    simp [varintWrite, varintRead, h1, hb, hm]
  · by_cases h2 : v < 16384
    · have hq : v / 256 < 64 := by omega
      have hb : (64 + v / 256) / 64 = 1 := by omega
      have hm : (64 + v / 256) % 64 = v / 256 := by omega
      simp [varintWrite, varintRead, h1, h2, hb, hm]
      omega
    · by_cases h3 : v < 1073741824
      · have hq : v / 16777216 < 64 := by omega
        have hb : (128 + v / 16777216) / 64 = 2 := by omega
        have hm : (128 + v / 16777216) % 64 = v / 16777216 := by omega
        simp [varintWrite, varintRead, h1, h2, h3, hb, hm]
        omega
      · have hq : v / 72057594037927936 < 64 := by omega
        have hb : (192 + v / 72057594037927936) / 64 = 3 := by omega
        have hm : (192 + v / 72057594037927936) % 64
            = v / 72057594037927936 := by omega
        simp [varintWrite, varintRead, h1, h2, h3, h, hb, hm]
        omega

/-- dataFrame.Write (client.go lines 91-94): emits the varint frame type
0x0 followed by the varint length into the header buffer. -/
def dataFrameWrite (Length : Nat) : List Nat :=
  varintWrite 0 ++ varintWrite Length

/-- Modelled from the spec: the read side of the raw conduit (spec
section 6), i.e. quic.Stream.Read of the external quic-go package as
RWStreamImp.Read invokes it with a buffer of size k.  It fills as many
bytes as available up to the buffer capacity; a read on an exhausted
conduit reports io.EOF; a zero length buffer reads nothing and reports
no error. -/
def strRead (c : List Nat) (k : Nat) : ReadResult × List Nat :=
  if k = 0 then (.ok [], c)
  else if c = [] then (.err .eof, [])
  else (.ok (c.take k), c.drop k)

/-- RWStreamImp.Read (client.go lines 135-167) on a conduit holding the
bytes the QUIC stream has not yet delivered, with a caller buffer of
length p.  The method parses the frame type and length varints, rejects
any type other than 0x0, and then reads min(length, p) bytes from the
stream; bytesRemainingInFrame is a local variable of the call.  The
returned pair is the result of the call together with the conduit as the
stream leaves it; a failed varint read has consumed every remaining
byte, since byteReaderImpl pulls one byte at a time until io.EOF. -/
def RWRead (c : List Nat) (p : Nat) : ReadResult × List Nat :=
  match varintRead c with
  | none => (.err .eof, [])
  | some (t, _, c1) =>
    match varintRead c1 with
    | none => (.err .eof, [])
    | some (l, _, c2) =>
      if t ≠ 0 then (.err (.unexpectedFrameType t), c2)
      else
        let bytesRemainingInFrame := l
        if bytesRemainingInFrame < p then strRead c2 bytesRemainingInFrame
        else strRead c2 p

/-- RWStreamImp.Write (client.go lines 125-133), parameterised by the
write operation wr of the raw conduit over conduit state σ
(quic.Stream.Write returns the accepted byte count and an error).  The
method builds the dataFrame header for len(p), writes it, returns
(0, err) if that write errors, discarding its count, and otherwise
returns the result of writing the payload. -/
def RWWrite (σ : Type) (wr : σ → List Nat → σ × Nat × Option Err)
    (s : σ) (p : List Nat) : σ × Nat × Option Err :=
  match wr s (dataFrameWrite p.length) with
  | (s1, _, some e) => (s1, 0, some e)
  | (s1, _, none) => wr s1 p

/-- A raw conduit whose write accepts every byte: the state is the list
of bytes sent so far. -/
def wrOk (s bs : List Nat) : List Nat × Nat × Option Err :=
  (s ++ bs, bs.length, none)

/-- RWStreamImp (client.go lines 121-123): the struct holds only the raw
QUIC stream and has no frame-progress field.  strBytes is the stream's
undelivered receive-direction bytes; closeCalls instruments the owned
conduit, counting how many times str.Close has been invoked on it. -/
structure RWStreamImp where
  strBytes : List Nat
  closeCalls : Nat
deriving DecidableEq

/-- RWStreamImp.Close (client.go lines 169-171): the body is exactly
return w.str.Close(), so every call invokes the close of the owned
conduit once more; nothing records that the stream was closed. -/
def RWClose (w : RWStreamImp) : RWStreamImp :=
  RWStreamImp.mk w.strBytes (w.closeCalls + 1)

/-- RWStreamImp.Read lifted to the struct: the method touches only the
stream bytes and never consults any close state (the struct has none). -/
def RWReadS (w : RWStreamImp) (p : Nat) : ReadResult × RWStreamImp :=
  ((RWRead w.strBytes p).1,
   RWStreamImp.mk (RWRead w.strBytes p).2 w.closeCalls)

/-- A read on a conduit that starts with exactly the frame payload
followed by anything delivers the payload and leaves the rest. -/
lemma strRead_exact (P rest : List Nat) :
    strRead (P ++ rest) P.length = (.ok P, rest) := by
  unfold strRead
  by_cases hz : P.length = 0
  · have hP : P = [] := List.length_eq_zero.mp hz
    simp [hP, hz]
  · have hne : ¬ P ++ rest = [] := by
      cases P with
      | nil => simp at hz
      | cons a t => simp
    rw [if_neg hz, if_neg hne]
    simp [List.take_left, List.drop_left]

/-- A read of n bytes, n at most the leading payload length, delivers
the first n payload bytes and leaves the remainder on the conduit. -/
lemma strRead_part (P rest : List Nat) (n : Nat) (h0 : 0 < n)
    (hn : n ≤ P.length) :
    strRead (P ++ rest) n = (.ok (P.take n), P.drop n ++ rest) := by
  have hne : ¬ P ++ rest = [] := by
    cases P with
    | nil => simp at hn; omega
    | cons a t => simp
  unfold strRead
  rw [if_neg (by omega), if_neg hne]
  rw [List.take_append_of_le_length hn, List.drop_append_of_le_length hn]

/-- Reading from a conduit whose head is a full DATA frame for payload P
reduces to a raw read of min(len P, n) bytes from just after the
header. -/
lemma RWRead_header (P rest : List Nat) (n : Nat)
    (hP : P.length < 4611686018427387904) :
    RWRead (dataFrameWrite P.length ++ P ++ rest) n
      = if P.length < n then strRead (P ++ rest) P.length
        else strRead (P ++ rest) n := by
  have h0 : varintRead (varintWrite 0 ++ (varintWrite P.length ++ (P ++ rest)))
      = some (0, (varintWrite 0).length, varintWrite P.length ++ (P ++ rest)) :=
    varintRead_varintWrite 0 (by omega) _
  have hL : varintRead (varintWrite P.length ++ (P ++ rest))
      = some (P.length, (varintWrite P.length).length, P ++ rest) :=
    varintRead_varintWrite P.length hP _
  simp [RWRead, dataFrameWrite, List.append_assoc, h0, hL]

/-- When both header varints parse and the type is not 0x0, Read fails
with the type error and the conduit stands just past the header. -/
lemma RWRead_bad_type (c : List Nat) (n t k1 : Nat) (c1 : List Nat)
    (l k2 : Nat) (c2 : List Nat)
    (h1 : varintRead c = some (t, k1, c1))
    (h2 : varintRead c1 = some (l, k2, c2)) (ht : t ≠ 0) :
    RWRead c n = (.err (.unexpectedFrameType t), c2) := by
  simp [RWRead, h1, h2, ht]

/-- A frame whose payload fits in the buffer is delivered whole. -/
lemma RWRead_frame_all (P rest : List Nat) (n : Nat)
    (hP : P.length < 4611686018427387904) (hn : P.length ≤ n) :
    RWRead (dataFrameWrite P.length ++ P ++ rest) n = (.ok P, rest) := by
  rw [RWRead_header P rest n hP]
  by_cases hlt : P.length < n
  · rw [if_pos hlt]
    exact strRead_exact P rest
  · have heq : n = P.length := by omega
    rw [if_neg hlt, heq]
    exact strRead_exact P rest

/-- A frame whose payload exceeds the buffer yields the first n payload
bytes; the rest of the payload stays on the conduit with nothing
recording that it belongs to an open frame. -/
lemma RWRead_frame_part (P rest : List Nat) (n : Nat)
    (hP : P.length < 4611686018427387904) (h0 : 0 < n)
    (hn : n < P.length) :
    RWRead (dataFrameWrite P.length ++ P ++ rest) n
      = (.ok (P.take n), P.drop n ++ rest) := by
  rw [RWRead_header P rest n hP, if_neg (by omega)]
  exact strRead_part P rest n h0 (by omega)

/-- Claim C1: the split-read scenario of the claim fails on the code.
After a frame carrying a 250-byte payload (every byte 0x41) is read once
with a 100-byte buffer, the 150 undelivered payload bytes stay on the
conduit with no frame-progress record, and the second read parses the
bytes 0x41 0x41 at the conduit head as a fresh varint header giving
frame type 321, then fails, instead of resuming the frame and delivering
the next 100 payload bytes. -/
theorem c1_split_read_diverges :
    RWRead (dataFrameWrite 250 ++ List.replicate 250 65) 100
        = (.ok (List.replicate 100 65), List.replicate 150 65)
    ∧ RWRead (List.replicate 150 65) 100
        = (.err (.unexpectedFrameType 321), List.replicate 146 65) :=
  ⟨rfl, rfl⟩

/-- Claim C2: a write of payload p hands the raw conduit exactly the
bytes varint 0, then varint (len p), then p, appended to what was sent
before, with nothing interleaved, and reports the payload byte count;
one call emits exactly one complete frame. -/
theorem c2_write_wire_format (sent p : List Nat)
    (_h : p.length < 4611686018427387904) :
    RWWrite (List Nat) wrOk sent p
      = (sent ++ (varintWrite 0 ++ varintWrite p.length ++ p),
         p.length, none) := by
  simp [RWWrite, wrOk, dataFrameWrite, List.append_assoc]

/-- Witness for C2 at sent = [], p = [1, 2, 3]. -/
theorem c2_write_wire_format_witness :
    ([1, 2, 3] : List Nat).length < 4611686018427387904
    ∧ RWWrite (List Nat) wrOk [] [1, 2, 3]
        = ([] ++ (varintWrite 0 ++ varintWrite ([1, 2, 3] : List Nat).length
            ++ [1, 2, 3]), ([1, 2, 3] : List Nat).length, none) :=
  ⟨by decide, c2_write_wire_format [] [1, 2, 3] (by decide)⟩

/-- Claim C3: writing payload P onto a fresh conduit and reading the
produced bytes with a buffer of at least len P bytes delivers exactly P
in one call and exhausts the conduit. -/
theorem c3_frame_roundtrip (P : List Nat) (n : Nat)
    (hP : P.length < 4611686018427387904) (hn : P.length ≤ n) :
    RWRead (RWWrite (List Nat) wrOk [] P).1 n = (.ok P, []) := by
  have hw : (RWWrite (List Nat) wrOk [] P).1
      = dataFrameWrite P.length ++ P ++ [] := by
    simp [RWWrite, wrOk, dataFrameWrite, List.append_assoc]
  rw [hw]
  exact RWRead_frame_all P [] n hP hn

/-- Witness for C3 at P = [9, 8], n = 5. -/
theorem c3_frame_roundtrip_witness :
    ([9, 8] : List Nat).length < 4611686018427387904
    ∧ ([9, 8] : List Nat).length ≤ 5
    ∧ RWRead (RWWrite (List Nat) wrOk [] [9, 8]).1 5 = (.ok [9, 8], []) :=
  ⟨by decide, by decide, c3_frame_roundtrip [9, 8] 5 (by decide) (by decide)⟩

/-- Claim C4: a frame whose header declares any type other than 0x0
makes Read fail with the type error and deliver no payload bytes. -/
theorem c4_reject_non_data (t l : Nat) (payload : List Nat) (n : Nat)
    (ht0 : t ≠ 0) (ht : t < 4611686018427387904)
    (hl : l < 4611686018427387904) :
    (RWRead (varintWrite t ++ varintWrite l ++ payload) n).1
      = .err (.unexpectedFrameType t) := by
  have h1 := varintRead_varintWrite t ht (varintWrite l ++ payload)
  have h2 := varintRead_varintWrite l hl payload
  rw [List.append_assoc]
  rw [RWRead_bad_type (varintWrite t ++ (varintWrite l ++ payload)) n t
    (varintWrite t).length (varintWrite l ++ payload) l
    (varintWrite l).length payload h1 h2 ht0]

/-- Witness for C4 at t = 1, l = 4, a 4-byte payload, n = 10. -/
theorem c4_reject_non_data_witness :
    (1 : Nat) ≠ 0
    ∧ (RWRead (varintWrite 1 ++ varintWrite 4 ++ [9, 9, 9, 9]) 10).1
        = .err (.unexpectedFrameType 1) :=
  ⟨by decide, c4_reject_non_data 1 4 [9, 9, 9, 9] 10 (by decide) (by decide)
    (by decide)⟩

/-- Claim C5: every Read call parses a fresh header.  When a frame
payload P exceeds the buffer n, the call delivers the first n bytes and
leaves the undelivered payload at the conduit head with no
frame-progress state (the stream struct has none); the next call applies
varint header parsing to those leftover payload bytes, so whenever they
decode as two varints with a nonzero first value the call fails with the
type error instead of resuming the frame. -/
theorem c5_fresh_header_each_read (P rest : List Nat) (n : Nat)
    (hP : P.length < 4611686018427387904) (h0 : 0 < n)
    (hn : n < P.length) :
    RWRead (dataFrameWrite P.length ++ P ++ rest) n
        = (.ok (P.take n), P.drop n ++ rest)
    ∧ ∀ t k1 c1 l k2 c2,
        varintRead (P.drop n ++ rest) = some (t, k1, c1) →
        varintRead c1 = some (l, k2, c2) → t ≠ 0 →
        RWRead (P.drop n ++ rest) n
          = (.err (.unexpectedFrameType t), c2) := by
  refine ⟨RWRead_frame_part P rest n hP h0 hn, ?_⟩
  intro t k1 c1 l k2 c2 h1 h2 ht
  exact RWRead_bad_type (P.drop n ++ rest) n t k1 c1 l k2 c2 h1 h2 ht

set_option maxRecDepth 10000 in
/-- Witness for C5: the 250-byte payload of 0x41 bytes read with a
100-byte buffer; the leftover 150 bytes decode as header type 321. -/
theorem c5_fresh_header_each_read_witness :
    (List.replicate 250 65).length < 4611686018427387904
    ∧ 0 < 100
    ∧ 100 < (List.replicate 250 65).length
    ∧ RWRead (dataFrameWrite (List.replicate 250 65).length
          ++ List.replicate 250 65 ++ []) 100
        = (.ok ((List.replicate 250 65).take 100),
           (List.replicate 250 65).drop 100 ++ [])
    ∧ RWRead ((List.replicate 250 65).drop 100 ++ []) 100
        = (.err (.unexpectedFrameType 321), List.replicate 146 65) := by
  have h := c5_fresh_header_each_read (List.replicate 250 65) [] 100
    (by decide) (by decide) (by decide)
  exact ⟨by decide, by decide, by decide, h.1,
    h.2 321 2 (List.replicate 148 65) 321 2 (List.replicate 146 65)
      (by decide) (by decide) (by decide)⟩

/-- Claim C6: decoding the encoding of any value below 2^62 returns the
value together with a consumed count equal to the byte length of the
encoding, leaving the rest of the input untouched. -/
theorem c6_varint_roundtrip (v : Nat) (h : v < 4611686018427387904)
    (rest : List Nat) :
    varintRead (varintWrite v ++ rest)
      = some (v, (varintWrite v).length, rest) :=
  varintRead_varintWrite v h rest

/-- Witness for C6 at v = 16384, the smallest 4-byte value. -/
theorem c6_varint_roundtrip_witness :
    (16384 : Nat) < 4611686018427387904
    ∧ varintRead (varintWrite 16384 ++ [])
        = some (16384, (varintWrite 16384).length, []) :=
  ⟨by decide, c6_varint_roundtrip 16384 (by decide) []⟩

/-- Claim C7: the code does not report a distinct truncation error.  A
conduit that ends right after a DATA header declaring length 50 makes
Read return the io.EOF of the conduit, the very value a clean
end-of-stream with no frame in progress also returns; a conduit that
ends after only 3 of the declared 50 payload bytes even yields a
successful short read. -/
theorem c7_truncation_reports_eof :
    RWRead [0, 50] 100 = (.err .eof, [])
    ∧ RWRead [] 100 = (.err .eof, [])
    ∧ RWRead [0, 50, 1, 2, 3] 100 = (.ok [1, 2, 3], []) :=
  ⟨rfl, rfl, rfl⟩

/-- Counterexample to Claim C8: calling close twice invokes the close of
the owned conduit twice, not once, and a read performed after close is
forwarded to the conduit and can still succeed, rather than failing
with a StreamClosed error. -/
theorem c8_close_counterexample :
    (RWClose (RWClose (RWStreamImp.mk [] 0))).closeCalls = 2
    ∧ (RWReadS (RWClose (RWStreamImp.mk (dataFrameWrite 1 ++ [7]) 0)) 10).1
        = .ok [7] :=
  ⟨rfl, rfl⟩

/-- Claim C8 as amended: close only delegates, invoking the close of the
owned conduit on every call, so a second close invokes it a second time;
the layer keeps no closed flag, so a read after close behaves exactly as
a read before close (it is forwarded to the conduit unchanged) and no
StreamClosed error exists. -/
theorem c8_close_delegates (w : RWStreamImp) (n : Nat) :
    (RWClose (RWClose w)).closeCalls = w.closeCalls + 2
    ∧ (RWReadS (RWClose w) n).1 = (RWReadS w n).1
    ∧ (RWClose w).strBytes = w.strBytes :=
  ⟨rfl, rfl, rfl⟩

/-- Claim C9: when the frame type is rejected, both header varints have
already been consumed: Read returns the type error with no payload bytes
and the conduit advanced exactly past the two varints. -/
theorem c9_header_consumed_on_type_error (c : List Nat) (n t k1 : Nat)
    (c1 : List Nat) (l k2 : Nat) (c2 : List Nat)
    (h1 : varintRead c = some (t, k1, c1))
    (h2 : varintRead c1 = some (l, k2, c2)) (ht : t ≠ 0) :
    RWRead c n = (.err (.unexpectedFrameType t), c2) :=
  RWRead_bad_type c n t k1 c1 l k2 c2 h1 h2 ht

/-- Witness for C9: on the conduit [1, 2, 5, 5] the two varints 1 and 2
are consumed and the conduit stops at [5, 5]. -/
theorem c9_header_consumed_on_type_error_witness :
    varintRead [1, 2, 5, 5] = some (1, 1, [2, 5, 5])
    ∧ varintRead [2, 5, 5] = some (2, 1, [5, 5])
    ∧ RWRead [1, 2, 5, 5] 10 = (.err (.unexpectedFrameType 1), [5, 5]) :=
  ⟨by decide, by decide,
   c9_header_consumed_on_type_error [1, 2, 5, 5] 10 1 1 [2, 5, 5] 2 1
     [5, 5] (by decide) (by decide) (by decide)⟩

/-- Claim C10: if the header write errors, Write returns count 0 with
that error, whatever count the conduit reported for the header bytes,
and the payload is never written; if the header write reports no error,
Write returns exactly the result of the payload write, so the count on
success is the payload byte count accepted by the second conduit write
and never includes header bytes. -/
theorem c10_write_count_and_header_error (σ : Type)
    (wr : σ → List Nat → σ × Nat × Option Err) (s : σ) (p : List Nat) :
    (∀ s1 nh e, wr s (dataFrameWrite p.length) = (s1, nh, some e) →
        RWWrite σ wr s p = (s1, 0, some e))
    ∧ (∀ s1 nh, wr s (dataFrameWrite p.length) = (s1, nh, none) →
        RWWrite σ wr s p = wr s1 p) := by
  constructor
  · intro s1 nh e h
    simp [RWWrite, h]
  · intro s1 nh h
    simp [RWWrite, h]

/-- Witness for C10: a conduit whose write accepts one byte and then
errors makes Write report 0 bytes with that error, although the header
write had accepted a byte. -/
theorem c10_write_count_and_header_error_witness :
    (fun (s : Nat) (bs : List Nat) => (s + bs.length, 1, some Err.eof)) 0
        (dataFrameWrite ([7] : List Nat).length) = (2, 1, some Err.eof)
    ∧ RWWrite Nat
        (fun (s : Nat) (bs : List Nat) => (s + bs.length, 1, some Err.eof))
        0 [7] = (2, 0, some Err.eof) :=
  ⟨rfl,
   (c10_write_count_and_header_error Nat
     (fun (s : Nat) (bs : List Nat) => (s + bs.length, 1, some Err.eof))
     0 [7]).1 2 1 Err.eof rfl⟩
